import Mathlib

/-!
Verification development for the steamapi application module (`steamapi/app.py`).

The Python module exposes two entity classes, `SteamApp` and `SteamAchievement`,
whose properties aggregate the results of several remote API calls.  We embed
the data shapes of those API responses and the pure aggregation logic as Lean
definitions, with the network boundary made explicit: each operation that
performs remote calls takes the responses (or a fetch function) as an argument
and additionally returns the list of calls it issued.  Percent values are
embedded as rationals: the code only copies them, never computes with them.
-/

namespace SteamApi

/-- One remote API call issued by the module.  `GetSchemaForGame` is read
through the cached `_schema` property, which is passed in as data here. -/
inductive ApiCall where
  | getGlobalPercentages (gameid : Nat)
  | getUserStatsForGame (appid : Nat) (steamid : Nat)
  | getPlayerAchievements (steamid : Nat) (appid : Nat)
  | getSchemaForGame (appid : Nat)
deriving DecidableEq, Repr

/-- One achievement definition inside the schema response
(`GetSchemaForGame`): fields `name`, `displayName` and `hidden`. -/
structure SchemaAchievement where
  name : String
  displayName : String
  hidden : Int
deriving DecidableEq, Repr

/-- The `availableGameStats` section of the schema's `game` object. -/
structure AvailableGameStats where
  achievements : List SchemaAchievement
deriving DecidableEq, Repr

/-- The `game` object of the schema response.  `none` fields embed absence of
the JSON key (the code tests membership before access). -/
structure SchemaGame where
  gameName : Option String
  availableGameStats : Option AvailableGameStats
deriving DecidableEq, Repr

/-- The whole `GetSchemaForGame` response. -/
structure Schema where
  game : SchemaGame
deriving DecidableEq, Repr

/-- One entry of `GetGlobalAchievementPercentagesForApp`:
`name` and `percent`. -/
structure GlobalAchievement where
  name : String
  percent : Rat
deriving DecidableEq, Repr

/-- The `achievementpercentages` object of the global-percentages response. -/
structure AchievementPercentages where
  achievements : List GlobalAchievement
deriving DecidableEq, Repr

/-- The whole `GetGlobalAchievementPercentagesForApp` response. -/
structure GlobalPercentagesResponse where
  achievementpercentages : AchievementPercentages
deriving DecidableEq, Repr

/-- One entry of the `achievements` array of `GetUserStatsForGame`:
field `name` (the api name) and the `achieved` flag. -/
structure UserStatsAchievement where
  name : String
  achieved : Int
deriving DecidableEq, Repr

/-- The `playerstats` object of `GetUserStatsForGame`.  `achievements = none`
embeds the absence of the `achievements` key. -/
structure PlayerStats where
  achievements : Option (List UserStatsAchievement)
deriving DecidableEq, Repr

/-- The whole `GetUserStatsForGame` response.  `fields` is modelled from the
spec: `core.APIResponse` (not under src) supports "does this field exist"
containment checks, so when the code evaluates `x in response` on the raw
response object the result is membership of `x` among the response's
top-level field names; for this endpoint that list is `["playerstats"]`. -/
structure UserStatsResponse where
  playerstats : PlayerStats
  fields : List String
deriving DecidableEq, Repr

/-- An in-memory `SteamAchievement` instance right after the aggregation in
`SteamApp.achievements` has finished with it.  `_id` of the Python object is
`apiname`; `is_hidden` and `is_achieved` are the cache entries written with
the manual-override `store` operation (`none` = entry never written). -/
structure SteamAchievement where
  appid : Nat
  apiname : String
  displayname : String
  userid : Option Nat
  unlock_percentage : Rat
  is_hidden : Option Bool
  is_achieved : Option Bool
deriving DecidableEq, Repr

/-- An in-memory `SteamApp` instance as produced by `SteamApp.__init__`:
`_id`, the optional pre-seeded `name` cache entry, `_owner`, and `_userid`
(initialised from `_owner`). -/
structure SteamApp where
  _id : Nat
  nameCache : Option String
  _owner : Option Nat
  _userid : Option Nat
deriving DecidableEq, Repr

/-- `SteamApp.__init__(appid, name, owner)`: stores the id, caches the name
when one is given, and sets both `_owner` and `_userid` to `owner`. -/
def SteamApp.init (appid : Nat) (name : Option String) (owner : Option Nat) :
    SteamApp :=
  ⟨appid, name, owner, owner⟩

/-- A raw API response fragment handed to `SteamApp.from_api_response`:
optional `appid` and `name` fields (`none` = key absent). -/
structure ApiJson where
  appid : Option Nat
  name : Option String
deriving DecidableEq, Repr

/-- `SteamApp.from_api_response`: raises `ValueError` when the fragment has
no `appid` key, otherwise builds a `SteamApp` with the optional name and the
associated user id. -/
def SteamApp.from_api_response (api_json : ApiJson)
    (associated_userid : Option Nat) : Except String SteamApp :=
  match api_json.appid with
  | none => .error "An app ID is required to create a SteamApp object."
  | some appid => .ok (SteamApp.init appid api_json.name associated_userid)

/-- The `unlocks` local variable of `SteamApp.achievements` after the
per-user step: `noUser` embeds Python `None` (no bound user id), `names`
the extracted list of achieved api names, and `raw` the untouched
`GetUserStatsForGame` response object (kept when the response has no
`achievements` key), of which only the top-level field names matter to the
later containment check. -/
inductive Unlocks where
  | noUser
  | names (l : List String)
  | raw (fields : List String)
deriving DecidableEq, Repr

/-- The achieved-name extraction of `SteamApp.achievements`: api names of the
entries whose `achieved` flag is nonzero. -/
def achievedNames (achs : List UserStatsAchievement) : List String :=
  (achs.filter (fun a => a.achieved != 0)).map UserStatsAchievement.name

/-- The per-user step of `SteamApp.achievements`: with no bound user the
fetch is skipped and `unlocks` stays `None`; otherwise `GetUserStatsForGame`
is called and its `achievements` key, when present, is reduced to the
achieved api names (when absent, `unlocks` keeps the raw response). -/
def extractUnlocks (userid : Option Nat)
    (fetchUserStats : Nat → Nat → UserStatsResponse) (appid : Nat) :
    Unlocks × List ApiCall :=
  match userid with
  | none => (.noUser, [])
  | some uid =>
    let resp := fetchUserStats appid uid
    match resp.playerstats.achievements with
    | some achs => (.names (achievedNames achs), [.getUserStatsForGame appid uid])
    | none => (.raw resp.fields, [.getUserStatsForGame appid uid])

/-- The inner loop of `SteamApp.achievements` over the global-percentage
entries: each entry whose `name` equals the achievement's api name overwrites
`unlock_percentage` (so the last matching entry wins), starting from the
constructor's `0.0`. -/
def mergePercentage (gps : List GlobalAchievement) (nm : String) : Rat :=
  gps.foldl (fun acc g => if g.name = nm then g.percent else acc) 0

/-- Construction of one `SteamAchievement` inside `SteamApp.achievements`:
`SteamAchievement.__init__` with `(appid, name, displayName, userid)`, the
`is_hidden` cache entry stored from the schema's `hidden` marker, and the
global-percentage merge loop applied to `unlock_percentage`. -/
def buildAchievement (appid : Nat) (userid : Option Nat)
    (gps : List GlobalAchievement) (a : SchemaAchievement) : SteamAchievement :=
  { appid := appid
    apiname := a.name
    displayname := a.displayName
    userid := userid
    unlock_percentage := mergePercentage gps a.name
    is_hidden := if a.hidden == 0 then some false else some true
    is_achieved := none }

/-- The final loop of `SteamApp.achievements`: when `unlocks` is not `None`,
every achievement gets an `is_achieved` cache entry, true exactly when its
api name passes the containment check against `unlocks`. -/
def applyUnlocks (unlocks : Unlocks) (achs : List SteamAchievement) :
    List SteamAchievement :=
  match unlocks with
  | .noUser => achs
  | .names l => achs.map (fun a => { a with is_achieved := some (l.contains a.apiname) })
  | .raw fields => achs.map (fun a => { a with is_achieved := some (fields.contains a.apiname) })

/-- `SteamApp.achievements`: fetch global percentages, run the per-user step,
return `[]` when the schema's `game` has no `availableGameStats` section,
otherwise build one `SteamAchievement` per schema entry (in schema order) and
apply the `is_achieved` pass.  The cached `_schema` is passed in as data; the
returned list of `ApiCall`s records the network calls issued here. -/
def SteamApp.achievementsImpl (appid : Nat) (userid : Option Nat)
    (schema : Schema) (globalPct : GlobalPercentagesResponse)
    (fetchUserStats : Nat → Nat → UserStatsResponse) :
    List SteamAchievement × List ApiCall :=
  let gpCall : List ApiCall := [.getGlobalPercentages appid]
  let r := extractUnlocks userid fetchUserStats appid
  match schema.game.availableGameStats with
  | none => ([], gpCall ++ r.2)
  | some stats =>
    let lst := stats.achievements.map
      (buildAchievement appid userid globalPct.achievementpercentages.achievements)
    (applyUnlocks r.1 lst, gpCall ++ r.2)

/-- `SteamApp.name`: the schema game's `gameName` field when present,
otherwise the literal string `"<Unknown>"`. -/
def SteamApp.name (schema : Schema) : String :=
  match schema.game.gameName with
  | some n => n
  | none => "<Unknown>"

/-- The `data` object of a store `appdetails` entry.  The JSON values are
untyped; we embed each requested field with a simple carrier type, since the
accessors only forward them. -/
structure AppData where
  type : String
  required_age : Nat
  dlc : List Nat
  detailed_description : String
  about_the_game : String
  supported_languages : String
  header_image : String
  legal_notice : String
  website : String
  pc_requirements : List (String × String)
  mac_requirements : List (String × String)
  linux_requirements : List (String × String)
  fullgame : Option Nat
  developers : List String
  publishers : List String
  demos : Option (Nat × String)
  price_overview : Option (String × Nat × Nat × Nat)
  metacritic : Option (Nat × String)
  platforms : Bool × Bool × Bool
  categories : List (Nat × String)
  genres : List (Nat × String)
  recommendations : Nat
  release_date : Bool × String
deriving DecidableEq, Repr

/-- One entry of the store `appdetails` response: the `success` flag and the
`data` object. -/
structure StoreEntry where
  success : Bool
  data : AppData
deriving DecidableEq, Repr

/-- The store `appdetails` response: a mapping from the string form of an app
id to its entry, as indexed by `response[str(self._id)]`. -/
structure StoreResponse where
  entries : String → StoreEntry

/-- `SteamApp.app_info`: index the store response by `str(self._id)`; return
the `data` object when `success` is true, otherwise fall off the function
body (Python returns `None`). -/
def SteamApp.app_info (appid : Nat) (resp : StoreResponse) : Option AppData :=
  let entry := resp.entries (toString appid)
  if entry.success then some entry.data else none

/-- `SteamApp.type`: `self.app_info.type` when `app_info` is truthy,
otherwise `None`.  All the store-derived accessors below are pure projections
of the single cached `app_info` value: none of them takes a fetch function or
produces an `ApiCall`. -/
def SteamApp.type (info : Option AppData) : Option String :=
  match info with
  | some d => some d.type
  | none => none

/-- `SteamApp.required_age`: projection of `app_info`. -/
def SteamApp.required_age (info : Option AppData) : Option Nat :=
  match info with
  | some d => some d.required_age
  | none => none

/-- `SteamApp.dlc`: projection of `app_info`. -/
def SteamApp.dlc (info : Option AppData) : Option (List Nat) :=
  match info with
  | some d => some d.dlc
  | none => none

/-- `SteamApp.detailed_description`: projection of `app_info`. -/
def SteamApp.detailed_description (info : Option AppData) : Option String :=
  match info with
  | some d => some d.detailed_description
  | none => none

/-- `SteamApp.about_the_game`: projection of `app_info`. -/
def SteamApp.about_the_game (info : Option AppData) : Option String :=
  match info with
  | some d => some d.about_the_game
  | none => none

/-- `SteamApp.supported_languages`: projection of `app_info`. -/
def SteamApp.supported_languages (info : Option AppData) : Option String :=
  match info with
  | some d => some d.supported_languages
  | none => none

/-- `SteamApp.header_image`: projection of `app_info`. -/
def SteamApp.header_image (info : Option AppData) : Option String :=
  match info with
  | some d => some d.header_image
  | none => none

/-- `SteamApp.legal_notice`: projection of `app_info`. -/
def SteamApp.legal_notice (info : Option AppData) : Option String :=
  match info with
  | some d => some d.legal_notice
  | none => none

/-- `SteamApp.website`: projection of `app_info`. -/
def SteamApp.website (info : Option AppData) : Option String :=
  match info with
  | some d => some d.website
  | none => none

/-- `SteamApp.pc_requirements`: projection of `app_info`. -/
def SteamApp.pc_requirements (info : Option AppData) :
    Option (List (String × String)) :=
  match info with
  | some d => some d.pc_requirements
  | none => none

/-- `SteamApp.mac_requirements`: projection of `app_info`. -/
def SteamApp.mac_requirements (info : Option AppData) :
    Option (List (String × String)) :=
  match info with
  | some d => some d.mac_requirements
  | none => none

/-- `SteamApp.linux_requirements`: projection of `app_info`. -/
def SteamApp.linux_requirements (info : Option AppData) :
    Option (List (String × String)) :=
  match info with
  | some d => some d.linux_requirements
  | none => none

/-- `SteamApp.fullgame`: projection of `app_info`. -/
def SteamApp.fullgame (info : Option AppData) : Option (Option Nat) :=
  match info with
  | some d => some d.fullgame
  | none => none

/-- `SteamApp.developers`: projection of `app_info`. -/
def SteamApp.developers (info : Option AppData) : Option (List String) :=
  match info with
  | some d => some d.developers
  | none => none

/-- `SteamApp.publishers`: projection of `app_info`. -/
def SteamApp.publishers (info : Option AppData) : Option (List String) :=
  match info with
  | some d => some d.publishers
  | none => none

/-- `SteamApp.demos`: projection of `app_info`. -/
def SteamApp.demos (info : Option AppData) : Option (Option (Nat × String)) :=
  match info with
  | some d => some d.demos
  | none => none

/-- `SteamApp.price_overview`: projection of `app_info`. -/
def SteamApp.price_overview (info : Option AppData) :
    Option (Option (String × Nat × Nat × Nat)) :=
  match info with
  | some d => some d.price_overview
  | none => none

/-- `SteamApp.platforms`: projection of `app_info`. -/
def SteamApp.platforms (info : Option AppData) : Option (Bool × Bool × Bool) :=
  match info with
  | some d => some d.platforms
  | none => none

/-- `SteamApp.metacritic`: projection of `app_info`. -/
def SteamApp.metacritic (info : Option AppData) : Option (Option (Nat × String)) :=
  match info with
  | some d => some d.metacritic
  | none => none

/-- `SteamApp.categories`: projection of `app_info`. -/
def SteamApp.categories (info : Option AppData) : Option (List (Nat × String)) :=
  match info with
  | some d => some d.categories
  | none => none

/-- `SteamApp.genres`: projection of `app_info`. -/
def SteamApp.genres (info : Option AppData) : Option (List (Nat × String)) :=
  match info with
  | some d => some d.genres
  | none => none

/-- `SteamApp.recommendations`: projection of `app_info`. -/
def SteamApp.recommendations (info : Option AppData) : Option Nat :=
  match info with
  | some d => some d.recommendations
  | none => none

/-- `SteamApp.release_date`: projection of `app_info`. -/
def SteamApp.release_date (info : Option AppData) : Option (Bool × String) :=
  match info with
  | some d => some d.release_date
  | none => none

/-- `SteamApp.__hash__` hashes the Python tuple `('app', self.id)`.  We embed
the tuple itself: equal tuples hash equal in Python, so equality of hash keys
is a guaranteed hash collision. -/
def SteamApp.hashKey (appid : Nat) : String × Nat :=
  ("app", appid)

/-- `SteamAchievement.__hash__` hashes the Python tuple
`(self.id, self._appid)`, i.e. `(apiname, appid)` — no type tag. -/
def SteamAchievement.hashKey (apiname : String) (appid : Nat) : String × Nat :=
  (apiname, appid)

/-- Modelled from the spec: `SteamObject.__eq__` lives in `core.py`, which is
not under src.  Per the spec, equality combines a type discriminator with the
entity's natural id; we embed that identity as a tagged sum (an application's
natural id is its numeric app id, an achievement's is its api name). -/
inductive EntityId where
  | app (id : Nat)
  | achievement (id : String)
deriving DecidableEq, Repr

/-- One entry of the `GetPlayerAchievements` response: fields `apiname` and
`achieved` (this endpoint names the field `apiname`, unlike
`GetUserStatsForGame` which uses `name`). -/
structure PlayerAchievement where
  apiname : String
  achieved : Int
deriving DecidableEq, Repr

/-- The `playerstats` object of `GetPlayerAchievements`; the code iterates
its `achievements` array directly. -/
structure PlayerAchievementsStats where
  achievements : List PlayerAchievement
deriving DecidableEq, Repr

/-- The whole `GetPlayerAchievements` response. -/
structure PlayerAchievementsResponse where
  playerstats : PlayerAchievementsStats
deriving DecidableEq, Repr

/-- The loop body of `SteamAchievement.is_unlocked` over the
`GetPlayerAchievements` entries: the first entry whose `apiname` matches
decides the result (`achieved == 1`); no match means `False`. -/
def findUnlockedLoop (apiname : String) : List PlayerAchievement → Bool
  | [] => false
  | a :: rest =>
    if a.apiname == apiname then a.achieved == 1 else findUnlockedLoop apiname rest

/-- `SteamAchievement.is_unlocked`: with no bound user id it raises
`ValueError` before any network call; otherwise it calls
`GetPlayerAchievements` and scans the entries for this achievement's api
name. -/
def SteamAchievement.is_unlocked (userid : Option Nat) (appid : Nat)
    (apiname : String) (fetch : Nat → Nat → PlayerAchievementsResponse) :
    Except String Bool × List ApiCall :=
  match userid with
  | none => (.error "No Steam ID linked to this achievement!", [])
  | some uid =>
    let response := fetch uid appid
    (.ok (findUnlockedLoop apiname response.playerstats.achievements),
     [.getPlayerAchievements uid appid])

/-- The merge contract for a single achievement, relating a schema entry `s`
to the constructed achievement `a`: the api name is carried over,
`is_achieved` is set and true exactly when the api name is in the user's
achieved set, and `unlock_percentage` is the percent of the global entry
matching the api name, defaulting to `0` when none matches. -/
def mergeSpec (gps : List GlobalAchievement) (achieved : List String)
    (s : SchemaAchievement) (a : SteamAchievement) : Prop :=
  a.apiname = s.name ∧
  a.is_achieved = some (decide (s.name ∈ achieved)) ∧
  a.unlock_percentage
    = ((gps.find? (fun g => g.name == s.name)).map GlobalAchievement.percent).getD 0

/-- Example schema stats: two achievements `A` (not hidden) and `B`
(hidden), as in the spec's merge-correctness scenario. -/
def exStats : AvailableGameStats :=
  ⟨[⟨"A", "Ach A", 0⟩, ⟨"B", "Ach B", 1⟩]⟩

/-- Example schema wrapping `exStats`. -/
def exSchema : Schema := ⟨⟨some "Game", some exStats⟩⟩

/-- Example schema with no `availableGameStats` section (hidden app). -/
def hiddenSchema : Schema := ⟨⟨none, none⟩⟩

/-- Example global percentages: `A` at 10, `B` at 20. -/
def exGlobal : GlobalPercentagesResponse := ⟨⟨[⟨"A", 10⟩, ⟨"B", 20⟩]⟩⟩

/-- Example per-user stats entries: `A` achieved, `B` not. -/
def exUachs : List UserStatsAchievement := [⟨"A", 1⟩, ⟨"B", 0⟩]

/-- Example `GetUserStatsForGame` response with achieved set `{A}`. -/
def exResp : UserStatsResponse := ⟨⟨some exUachs⟩, ["playerstats"]⟩

/-- Example fetch function returning `exResp` for every query. -/
def exFetch : Nat → Nat → UserStatsResponse := fun _ _ => exResp

/-- Example `GetUserStatsForGame` response with no `achievements` key. -/
def exRespNoKey : UserStatsResponse := ⟨⟨none⟩, ["playerstats"]⟩

/-- Example fetch function returning `exRespNoKey` for every query. -/
def exFetchNoKey : Nat → Nat → UserStatsResponse := fun _ _ => exRespNoKey

/-- Example store `data` object. -/
def exData : AppData :=
  ⟨"game", 0, [], "", "", "", "", "", "", [], [], [], none, [], [], none,
   none, none, (true, false, false), [], [], 0, (false, "1 Jan, 2020")⟩

/-- Example store response whose entry for every id has `success = false`. -/
def exStoreRespFail : StoreResponse := ⟨fun _ => ⟨false, exData⟩⟩

/-- Example `GetPlayerAchievements` fetch whose response names only an
unrelated achievement. -/
def exPlayerFetch : Nat → Nat → PlayerAchievementsResponse :=
  fun _ _ => ⟨⟨[⟨"OTHER", 1⟩]⟩⟩

/-- Example schema stats whose only achievement's api name coincides with
the raw user-stats response's top-level field name `playerstats`. -/
def collideStats : AvailableGameStats := ⟨[⟨"playerstats", "Collide", 0⟩]⟩

/-- Example schema wrapping `collideStats`. -/
def collideSchema : Schema := ⟨⟨some "Game", some collideStats⟩⟩

/-! Helper lemmas about the merge loops. -/

theorem foldl_merge_const_of_not_mem (nm : String) :
    ∀ (gps : List GlobalAchievement) (q : Rat),
      nm ∉ gps.map GlobalAchievement.name →
      gps.foldl (fun acc g => if g.name = nm then g.percent else acc) q = q := by
  intro gps
  induction gps with
  | nil => intro q _; rfl
  | cons g rest ih =>
    intro q h
    simp only [List.map_cons, List.mem_cons, not_or] at h
    rw [List.foldl_cons, if_neg (Ne.symm h.1)]
    exact ih q h.2

theorem find_merge_none_of_not_mem (nm : String) :
    ∀ gps : List GlobalAchievement,
      nm ∉ gps.map GlobalAchievement.name →
      gps.find? (fun g => g.name == nm) = none := by
  intro gps
  induction gps with
  | nil => intro _; rfl
  | cons g rest ih =>
    intro h
    simp only [List.map_cons, List.mem_cons, not_or] at h
    have hg : (g.name == nm) = false := by
      simp [Ne.symm h.1]
    simp [List.find?_cons, hg, ih h.2]

theorem mergePercentage_eq_find (nm : String) :
    ∀ gps : List GlobalAchievement,
      (gps.map GlobalAchievement.name).Nodup →
      mergePercentage gps nm
        = ((gps.find? (fun g => g.name == nm)).map GlobalAchievement.percent).getD 0 := by
  intro gps
  induction gps with
  | nil => intro _; rfl
  | cons g rest ih =>
    intro h
    simp only [List.map_cons, List.nodup_cons] at h
    by_cases hg : g.name = nm
    · have hb : (g.name == nm) = true := by simp [hg]
      have hrest : nm ∉ rest.map GlobalAchievement.name := hg ▸ h.1
      simp only [mergePercentage, List.foldl_cons, if_pos hg, List.find?_cons, hb,
        cond_true, Option.map_some', Option.getD_some]
      exact foldl_merge_const_of_not_mem nm rest g.percent hrest
    · have hb : (g.name == nm) = false := by simp [hg]
      have hrec := ih h.2
      simp only [mergePercentage] at hrec
      simp only [mergePercentage, List.foldl_cons, if_neg hg, List.find?_cons, hb,
        cond_false]
      exact hrec

theorem forall2_of_map {α β : Type} (R : α → β → Prop) (f : α → β) :
    ∀ l : List α, (∀ x ∈ l, R x (f x)) → List.Forall₂ R l (l.map f) := by
  intro l
  induction l with
  | nil => intro _; exact List.Forall₂.nil
  | cons x xs ih =>
    intro h
    exact List.Forall₂.cons (h x (List.mem_cons_self x xs))
      (ih fun y hy => h y (List.mem_cons_of_mem x hy))

theorem findUnlockedLoop_false_of_no_match (apiname : String) :
    ∀ l : List PlayerAchievement,
      l.all (fun a => !(a.apiname == apiname)) = true →
      findUnlockedLoop apiname l = false := by
  intro l
  induction l with
  | nil => intro _; rfl
  | cons a rest ih =>
    intro h
    simp only [List.all_cons, Bool.and_eq_true, Bool.not_eq_true'] at h
    simp [findUnlockedLoop, h.1, ih (by simpa using h.2)]

/-- C1: for a bound user whose stats response has an `achievements` key, and
global percentages with pairwise-distinct names, the sequence returned by the
achievements aggregation matches the schema entries pointwise: each
achievement carries its schema api name, `is_achieved` is set and true
exactly when the api name is in the user's achieved set, and
`unlock_percentage` is the percent of the global entry matching the api name,
defaulting to `0` when no entry matches. -/
theorem achievements_merge_correct (appid uid : Nat) (schema : Schema)
    (stats : AvailableGameStats) (globalPct : GlobalPercentagesResponse)
    (fetch : Nat → Nat → UserStatsResponse) (uachs : List UserStatsAchievement)
    (hnodup : (globalPct.achievementpercentages.achievements.map
        GlobalAchievement.name).Nodup)
    (hschema : schema.game.availableGameStats = some stats)
    (hstats : (fetch appid uid).playerstats.achievements = some uachs) :
    List.Forall₂
      (mergeSpec globalPct.achievementpercentages.achievements (achievedNames uachs))
      stats.achievements
      (SteamApp.achievementsImpl appid (some uid) schema globalPct fetch).1 := by
  simp only [SteamApp.achievementsImpl, extractUnlocks, hstats, hschema,
    applyUnlocks, List.map_map]
  apply forall2_of_map
  intro s _
  refine ⟨rfl, ?_, ?_⟩
  · simp [buildAchievement, List.contains, achievedNames]
  · exact mergePercentage_eq_find s.name _ hnodup

/-- C1 witness: the spec's concrete scenario — schema `{A, B}`, global
percentages `{A: 10, B: 20}`, achieved set `{A}`. -/
theorem achievements_merge_correct_witness :
    List.Forall₂
      (mergeSpec exGlobal.achievementpercentages.achievements (achievedNames exUachs))
      exStats.achievements
      (SteamApp.achievementsImpl 10 (some 7) exSchema exGlobal exFetch).1 :=
  achievements_merge_correct 10 7 exSchema exStats exGlobal exFetch exUachs
    (by decide) rfl rfl

/-- C2: when the schema's `game` lacks the `availableGameStats` section, the
achievements aggregation returns the empty sequence (no achievement is
constructed), with no error. -/
theorem achievements_hidden_app (appid : Nat) (userid : Option Nat)
    (schema : Schema) (globalPct : GlobalPercentagesResponse)
    (fetch : Nat → Nat → UserStatsResponse)
    (h : schema.game.availableGameStats = none) :
    (SteamApp.achievementsImpl appid userid schema globalPct fetch).1 = [] := by
  simp [SteamApp.achievementsImpl, h]

/-- C2 witness: the hidden-app schema at a concrete input. -/
theorem achievements_hidden_app_witness :
    (SteamApp.achievementsImpl 1 none hiddenSchema exGlobal exFetch).1 = [] :=
  achievements_hidden_app 1 none hiddenSchema exGlobal exFetch rfl

/-- C4 counterexample: the unconditional claim is false — when the stats
response lacks the `achievements` key, `unlocks` stays the raw response and
the containment pass checks api names against its top-level field names, so
a schema achievement named `"playerstats"` is stored `is_achieved = True`,
not `False`. -/
theorem achievements_missing_user_key_counterexample :
    ((SteamApp.achievementsImpl 10 (some 7) collideSchema exGlobal exFetchNoKey).1.map
        SteamAchievement.is_achieved) = [some true] := rfl

/-- C4 amended: when the bound user's stats response lacks the
`achievements` key and no schema api name collides with a top-level field of
that raw response, the aggregation completes and every achievement's
`is_achieved` cache entry is `False` (the achieved set is effectively
empty); an api name equal to such a field name is instead marked
achieved. -/
theorem achievements_missing_user_key (appid uid : Nat) (schema : Schema)
    (stats : AvailableGameStats) (globalPct : GlobalPercentagesResponse)
    (fetch : Nat → Nat → UserStatsResponse)
    (hschema : schema.game.availableGameStats = some stats)
    (hkey : (fetch appid uid).playerstats.achievements = none)
    (hfields : stats.achievements.all
      (fun s => !((fetch appid uid).fields.contains s.name)) = true) :
    (SteamApp.achievementsImpl appid (some uid) schema globalPct fetch).1.all
      (fun a => a.is_achieved == some false) = true := by
  simp only [SteamApp.achievementsImpl, extractUnlocks, hkey, hschema,
    applyUnlocks, List.map_map, List.all_eq_true, List.mem_map]
  rintro b ⟨s, hs, rfl⟩
  simp only [List.all_eq_true] at hfields
  have hc := hfields s hs
  simp only [Function.comp_apply, buildAchievement] at hc ⊢
  simp only [Bool.not_eq_true'] at hc
  simp only [List.contains, List.elem_eq_mem, decide_eq_false_iff_not] at hc
  simp [hc]

/-- C4 witness: concrete stats response without the `achievements` key whose
only top-level field is `playerstats`. -/
theorem achievements_missing_user_key_witness :
    (SteamApp.achievementsImpl 10 (some 7) exSchema exGlobal exFetchNoKey).1.all
      (fun a => a.is_achieved == some false) = true :=
  achievements_missing_user_key 10 7 exSchema exStats exGlobal exFetchNoKey
    rfl rfl (by decide)

/-- C8: for an application with no bound user id, the achievements
aggregation issues only the global-percentages call (the per-user stats fetch
is skipped: the result does not depend on the fetch function at all), and no
achievement in the returned sequence has an `is_achieved` cache entry. -/
theorem achievements_no_user_binding (appid : Nat) (schema : Schema)
    (globalPct : GlobalPercentagesResponse)
    (fetch fetchB : Nat → Nat → UserStatsResponse) :
    (SteamApp.achievementsImpl appid none schema globalPct fetch).2
        = [ApiCall.getGlobalPercentages appid] ∧
    (SteamApp.achievementsImpl appid none schema globalPct fetch).1.all
        (fun a => a.is_achieved.isNone) = true ∧
    SteamApp.achievementsImpl appid none schema globalPct fetch
        = SteamApp.achievementsImpl appid none schema globalPct fetchB := by
  cases h : schema.game.availableGameStats with
  | none =>
    refine ⟨?_, ?_, ?_⟩ <;> simp [SteamApp.achievementsImpl, extractUnlocks, h]
  | some stats =>
    refine ⟨?_, ?_, ?_⟩ <;>
      simp [SteamApp.achievementsImpl, extractUnlocks, h, applyUnlocks,
        List.all_eq_true, List.mem_map, buildAchievement]

/-- C3: when the store entry for the app id carries `success = false`,
`app_info` is absent and every derived accessor returns an absent value
rather than failing; each accessor is by definition a pure projection of the
single `app_info` value (none takes a fetch function or emits an
`ApiCall`). -/
theorem store_info_absent (appid : Nat) (resp : StoreResponse)
    (h : (resp.entries (toString appid)).success = false) :
    SteamApp.app_info appid resp = none ∧
    SteamApp.type (SteamApp.app_info appid resp) = none ∧
    SteamApp.required_age (SteamApp.app_info appid resp) = none ∧
    SteamApp.dlc (SteamApp.app_info appid resp) = none ∧
    SteamApp.detailed_description (SteamApp.app_info appid resp) = none ∧
    SteamApp.about_the_game (SteamApp.app_info appid resp) = none ∧
    SteamApp.supported_languages (SteamApp.app_info appid resp) = none ∧
    SteamApp.header_image (SteamApp.app_info appid resp) = none ∧
    SteamApp.legal_notice (SteamApp.app_info appid resp) = none ∧
    SteamApp.website (SteamApp.app_info appid resp) = none ∧
    SteamApp.pc_requirements (SteamApp.app_info appid resp) = none ∧
    SteamApp.mac_requirements (SteamApp.app_info appid resp) = none ∧
    SteamApp.linux_requirements (SteamApp.app_info appid resp) = none ∧
    SteamApp.fullgame (SteamApp.app_info appid resp) = none ∧
    SteamApp.developers (SteamApp.app_info appid resp) = none ∧
    SteamApp.publishers (SteamApp.app_info appid resp) = none ∧
    SteamApp.demos (SteamApp.app_info appid resp) = none ∧
    SteamApp.price_overview (SteamApp.app_info appid resp) = none ∧
    SteamApp.platforms (SteamApp.app_info appid resp) = none ∧
    SteamApp.metacritic (SteamApp.app_info appid resp) = none ∧
    SteamApp.categories (SteamApp.app_info appid resp) = none ∧
    SteamApp.genres (SteamApp.app_info appid resp) = none ∧
    SteamApp.recommendations (SteamApp.app_info appid resp) = none ∧
    SteamApp.release_date (SteamApp.app_info appid resp) = none := by
  have hinfo : SteamApp.app_info appid resp = none := by
    simp [SteamApp.app_info, h]
  rw [hinfo]
  exact ⟨rfl, rfl, rfl, rfl, rfl, rfl, rfl, rfl, rfl, rfl, rfl, rfl, rfl,
    rfl, rfl, rfl, rfl, rfl, rfl, rfl, rfl, rfl, rfl, rfl⟩

/-- C3 witness: a concrete store response whose entries all fail. -/
theorem store_info_absent_witness :
    SteamApp.app_info 440 exStoreRespFail = none ∧
    SteamApp.type (SteamApp.app_info 440 exStoreRespFail) = none ∧
    SteamApp.required_age (SteamApp.app_info 440 exStoreRespFail) = none ∧
    SteamApp.dlc (SteamApp.app_info 440 exStoreRespFail) = none ∧
    SteamApp.detailed_description (SteamApp.app_info 440 exStoreRespFail) = none ∧
    SteamApp.about_the_game (SteamApp.app_info 440 exStoreRespFail) = none ∧
    SteamApp.supported_languages (SteamApp.app_info 440 exStoreRespFail) = none ∧
    SteamApp.header_image (SteamApp.app_info 440 exStoreRespFail) = none ∧
    SteamApp.legal_notice (SteamApp.app_info 440 exStoreRespFail) = none ∧
    SteamApp.website (SteamApp.app_info 440 exStoreRespFail) = none ∧
    SteamApp.pc_requirements (SteamApp.app_info 440 exStoreRespFail) = none ∧
    SteamApp.mac_requirements (SteamApp.app_info 440 exStoreRespFail) = none ∧
    SteamApp.linux_requirements (SteamApp.app_info 440 exStoreRespFail) = none ∧
    SteamApp.fullgame (SteamApp.app_info 440 exStoreRespFail) = none ∧
    SteamApp.developers (SteamApp.app_info 440 exStoreRespFail) = none ∧
    SteamApp.publishers (SteamApp.app_info 440 exStoreRespFail) = none ∧
    SteamApp.demos (SteamApp.app_info 440 exStoreRespFail) = none ∧
    SteamApp.price_overview (SteamApp.app_info 440 exStoreRespFail) = none ∧
    SteamApp.platforms (SteamApp.app_info 440 exStoreRespFail) = none ∧
    SteamApp.metacritic (SteamApp.app_info 440 exStoreRespFail) = none ∧
    SteamApp.categories (SteamApp.app_info 440 exStoreRespFail) = none ∧
    SteamApp.genres (SteamApp.app_info 440 exStoreRespFail) = none ∧
    SteamApp.recommendations (SteamApp.app_info 440 exStoreRespFail) = none ∧
    SteamApp.release_date (SteamApp.app_info 440 exStoreRespFail) = none :=
  store_info_absent 440 exStoreRespFail rfl

/-- C5 counterexample: the hash keys are not collision-free across entity
types — a `SteamAchievement` whose api name is the string `"app"` linked to
app 100 hashes the same tuple as the `SteamApp` with id 100, so the two
produce identical Python hashes. -/
theorem hashKey_cross_type_collision :
    SteamAchievement.hashKey "app" 100 = SteamApp.hashKey 100 := rfl

/-- C5 amended: `SteamApp.__hash__` hashes `('app', id)`; however
`SteamAchievement.__hash__` hashes `(apiname, appid)` with no type tag, so
the two hash keys coincide exactly when the achievement's api name is
`"app"` and its linked appid equals the application's id.  In particular the
claimed instance — an application with id 100 and an achievement whose id is
the string `"100"` — still gets distinct keys, and the spec-modelled
equality (`core.SteamObject` equality is not under src; the spec combines a
type discriminator with the natural id) never equates the two entity
types. -/
theorem hashKey_discrimination (appid aid n : Nat) (apiname s : String) :
    (SteamAchievement.hashKey apiname aid = SteamApp.hashKey appid
      ↔ (apiname = "app" ∧ aid = appid)) ∧
    SteamAchievement.hashKey "100" 100 ≠ SteamApp.hashKey 100 ∧
    EntityId.app n ≠ EntityId.achievement s := by
  refine ⟨?_, by decide, by simp⟩
  simp [SteamAchievement.hashKey, SteamApp.hashKey, Prod.ext_iff]

/-- C6: a response fragment without an `appid` key makes
`from_api_response` fail with the invalid-argument error; no instance is
produced. -/
theorem from_api_response_requires_appid (api_json : ApiJson)
    (uid : Option Nat) (h : api_json.appid = none) :
    SteamApp.from_api_response api_json uid
      = .error "An app ID is required to create a SteamApp object." := by
  simp [SteamApp.from_api_response, h]

/-- C6 witness: a fragment carrying only a name. -/
theorem from_api_response_requires_appid_witness :
    SteamApp.from_api_response ⟨none, some "Portal"⟩ none
      = .error "An app ID is required to create a SteamApp object." :=
  from_api_response_requires_appid ⟨none, some "Portal"⟩ none rfl

/-- C7: with no bound user id, `is_unlocked` fails with the invalid-state
error and issues no network call. -/
theorem is_unlocked_requires_user (appid : Nat) (apiname : String)
    (fetch : Nat → Nat → PlayerAchievementsResponse) :
    SteamAchievement.is_unlocked none appid apiname fetch
      = (.error "No Steam ID linked to this achievement!", []) := rfl

/-- C9: `SteamApp.name` returns the literal `"<Unknown>"` when the schema
game has no `gameName` field, and exactly the field's value when it is
present. -/
theorem name_unknown_default (schema : Schema) :
    (schema.game.gameName = none → SteamApp.name schema = "<Unknown>") ∧
    (∀ n, schema.game.gameName = some n → SteamApp.name schema = n) := by
  constructor
  · intro h; simp [SteamApp.name, h]
  · intro n h; simp [SteamApp.name, h]

/-- C9 witness: both branches at concrete schemas. -/
theorem name_unknown_default_witness :
    SteamApp.name hiddenSchema = "<Unknown>" ∧
    SteamApp.name exSchema = "Game" :=
  ⟨(name_unknown_default hiddenSchema).1 rfl,
   (name_unknown_default exSchema).2 "Game" rfl⟩

/-- C10: with a bound user, when no entry of the player-achievements
response matches this achievement's api name, `is_unlocked` returns `False`
(not an error). -/
theorem is_unlocked_absent_entry (uid appid : Nat) (apiname : String)
    (fetch : Nat → Nat → PlayerAchievementsResponse)
    (h : (fetch uid appid).playerstats.achievements.all
      (fun a => !(a.apiname == apiname)) = true) :
    (SteamAchievement.is_unlocked (some uid) appid apiname fetch).1
      = .ok false := by
  simp only [SteamAchievement.is_unlocked]
  exact congrArg Except.ok
    (findUnlockedLoop_false_of_no_match apiname _ h)

/-- C10 witness: a response naming only an unrelated achievement. -/
theorem is_unlocked_absent_entry_witness :
    (SteamAchievement.is_unlocked (some 7) 10 "ACH_WIN" exPlayerFetch).1
      = .ok false :=
  is_unlocked_absent_entry 7 10 "ACH_WIN" exPlayerFetch (by decide)

end SteamApi
